import Mathlib

/-!
# Verification of the cluster reconciliation loop and the WAL-archive command

Shallow embedding of `controllers/cluster_controller.go` (the `Reconcile`
loop, the `SatisfiedExpectations` gate and the `ReconcilePods` action
selector) and of `internal/cmd/manager/walarchive/cmd.go`
(`barmanCloudWalArchiveOptions` and the `run` control flow).

External calls made by `Reconcile` (API gets, status updates, instance
queries) are modelled by an environment record carrying each call's result;
the control flow itself is transcribed from the Go source.
-/

namespace CNPG

/-- Flags of the optional node-maintenance window carried by the cluster
spec. Modelled from the spec: the `Cluster` CRD type is not among the
sources; the spec's data model lists "maintenance-window flags" and the
controller queries two distinct predicates on them (`InProgress`, and
PVC reuse during the window). -/
structure NodeMaintenanceWindow where
  inProgress : Bool
  reusePVC : Bool
deriving DecidableEq

/-- The part of the Cluster spec read by the controller. -/
structure ClusterSpecFields where
  instances : Int
  nodeMaintenanceWindow : Option NodeMaintenanceWindow
deriving DecidableEq

/-- The part of the Cluster status read by the controller. -/
structure ClusterStatus where
  instances : Int
  readyInstances : Int
  currentPrimary : String
  targetPrimary : String
  danglingPVC : List String
deriving DecidableEq

/-- A Cluster resource: identity, desired spec and observed status. -/
structure Cluster where
  name : String
  namespc : String
  spec : ClusterSpecFields
  status : ClusterStatus
deriving DecidableEq

/-- Modelled from the spec: `Cluster.IsNodeMaintenanceWindowInProgress` is
not among the sources; it holds when a node-maintenance window is declared
and flagged in progress. -/
def Cluster.IsNodeMaintenanceWindowInProgress (cluster : Cluster) : Bool :=
  match cluster.spec.nodeMaintenanceWindow with
  | none => false
  | some w => w.inProgress

/-- Modelled from the spec: `Cluster.IsNodeMaintenanceWindowReusePVC` is
not among the sources; it holds when a node-maintenance window is in
progress and PVC reuse is enabled for it. -/
def Cluster.IsNodeMaintenanceWindowReusePVC (cluster : Cluster) : Bool :=
  cluster.IsNodeMaintenanceWindowInProgress &&
    (match cluster.spec.nodeMaintenanceWindow with
     | none => false
     | some w => w.reusePVC)

/-- Modelled from the spec: `generateNodeSerial` is not among the sources;
per the spec the selector "allocates the next serial number" when joining a
replica, and the spec's scenario with one existing instance yields serial 2,
so the next serial is one past the current instance count. -/
def generateNodeSerial (cluster : Cluster) : Int :=
  cluster.status.instances + 1

/-- The single action class chosen by `ReconcilePods` on one invocation.
Each constructor is one early-`return` branch of the Go function. -/
inductive PodAction
  | waitDanglingNotReady
  | handleDanglingPVC
  | createPrimaryInstance
  | registerHealthyAndUpgrade
  | waitPodNotReady
  | joinReplicaInstance (serial : Int)
  | scaleDownCluster
  | noop
deriving DecidableEq

/-- `ReconcilePods` decides when to create, scale up/down or wait for pods:
the guard chain transcribed from the Go source (the action selector). -/
def ReconcilePods (cluster : Cluster) : PodAction :=
  if cluster.status.danglingPVC.length > 0 then
    if !cluster.IsNodeMaintenanceWindowInProgress &&
        cluster.status.readyInstances != cluster.status.instances then
      .waitDanglingNotReady
    else
      .handleDanglingPVC
  else if cluster.status.instances = 0 then
    .createPrimaryInstance
  else if cluster.status.readyInstances = cluster.status.instances &&
      cluster.status.instances = cluster.spec.instances then
    .registerHealthyAndUpgrade
  else if !cluster.IsNodeMaintenanceWindowReusePVC &&
      cluster.status.readyInstances < cluster.status.instances then
    .waitPodNotReady
  else if cluster.status.instances < cluster.spec.instances &&
      cluster.status.readyInstances = cluster.status.instances then
    .joinReplicaInstance (generateNodeSerial cluster)
  else if cluster.status.instances > cluster.spec.instances then
    .scaleDownCluster
  else
    .noop

/-- Result of a `Get` call against the API server. -/
inductive FetchError
  | notFound
  | other
deriving DecidableEq

/-- The fields of a Namespace object read by `Reconcile`. -/
structure NamespaceObject where
  deletionTimestampIsZero : Bool
deriving DecidableEq

/-- Result of the `updateResourceStatus` call. -/
inductive StatusUpdateError
  | conflict
  | other
deriving DecidableEq

/-- Results of the external calls one `Reconcile` invocation makes, in the
order the Go code makes them. `runningJobs` is `resources.countRunningJobs()`
on the collected snapshot (meaningful when `getResourcesOk` holds). -/
structure ReconcileEnv where
  getCluster : Except FetchError Cluster
  getNamespace : Except FetchError NamespaceObject
  getResourcesOk : Bool
  runningJobs : Nat
  updateStatusResult : Option StatusUpdateError
  createObjectsOk : Bool
  getInstancesStatusOk : Bool
  updateTargetPrimaryOk : Bool
  updateLabelsOk : Bool
  satisfiedExpectations : Bool

/-- The terminal outcome of one `Reconcile` invocation: which `return`
statement of the Go function fired (for `podAction`, which action
`ReconcilePods` chose). -/
inductive ReconcileOutcome
  | clusterDeleted
  | getClusterError
  | getNamespaceError
  | namespaceBeingDeleted
  | getResourcesError
  | switchoverWait
  | statusUpdateConflictRetry
  | statusUpdateError
  | jobsWait
  | createObjectsError
  | instancesStatusError
  | targetPrimaryError
  | updateLabelsError
  | expectationsWait
  | podAction (a : PodAction)
deriving DecidableEq

/-- Whether the outcome's `return` statement carries a `nil` error:
`some true` for empty-result, nil-error returns, `some false` for error
returns, `none` for `podAction` where the error is delegated to the chosen
action's own calls. `switchoverWait` returns the `err` variable, which is
`nil` at that point because `getManagedResources` has just succeeded. -/
def ReconcileOutcome.errorIsNil : ReconcileOutcome → Option Bool
  | .clusterDeleted => some true
  | .getClusterError => some false
  | .getNamespaceError => some false
  | .namespaceBeingDeleted => some true
  | .getResourcesError => some false
  | .switchoverWait => some true
  | .statusUpdateConflictRetry => some true
  | .statusUpdateError => some false
  | .jobsWait => some true
  | .createObjectsError => some false
  | .instancesStatusError => some false
  | .targetPrimaryError => some false
  | .updateLabelsError => some false
  | .expectationsWait => some true
  | .podAction _ => none

/-- `Reconcile` is the operator reconciler loop: the control flow of the Go
function over the results of its external calls. The branch order is the
source's: cluster fetch, namespace fetch, deletion-timestamp check, snapshot
collection, the current-vs-target-primary wait, the status update, the
running-jobs wait, auxiliary-object creation, instance status, target-primary
update, pod labels, the expectations gate, and finally `ReconcilePods`. -/
def Reconcile (env : ReconcileEnv) : ReconcileOutcome :=
  match env.getCluster with
  | .error .notFound => .clusterDeleted
  | .error .other => .getClusterError
  | .ok cluster =>
    match env.getNamespace with
    | .error _ => .getNamespaceError
    | .ok ns =>
      if !ns.deletionTimestampIsZero then .namespaceBeingDeleted
      else if !env.getResourcesOk then .getResourcesError
      else if cluster.status.currentPrimary != "" &&
          cluster.status.currentPrimary != cluster.status.targetPrimary then
        .switchoverWait
      else
        match env.updateStatusResult with
        | some .conflict => .statusUpdateConflictRetry
        | some .other => .statusUpdateError
        | none =>
          if env.runningJobs > 0 then .jobsWait
          else if !env.createObjectsOk then .createObjectsError
          else if !env.getInstancesStatusOk then .instancesStatusError
          else if !env.updateTargetPrimaryOk then .targetPrimaryError
          else if !env.updateLabelsOk then .updateLabelsError
          else if env.satisfiedExpectations then .podAction (ReconcilePods cluster)
          else .expectationsWait

/-! ## The expectation tracker

`pkg/expectations.ControllerExpectations` is not among the sources; only its
use in `SatisfiedExpectations` (cluster_controller.go:167-180) is. The
tracker itself is modelled from the spec. Time is threaded explicitly as a
`Nat` instant. -/

/-- One expectation record: pending creates, pending deletes, and the
instant of the last `Expect*` call. Modelled from the spec: "a mapping from
cluster identity to (pending-creates count, pending-deletes count)". -/
structure Expectation where
  adds : Int
  dels : Int
  timestamp : Nat
deriving DecidableEq

/-- The fixed time-to-live after which an expectation record expires.
Modelled from the spec: "a fixed time-to-live (default horizon on the order
of minutes)"; five minutes, in seconds. -/
def expectationTTL : Nat := 300

/-- An expectation record is fulfilled when no creates or deletes remain
pending. -/
def Expectation.fulfilled (e : Expectation) : Bool :=
  e.adds ≤ 0 && e.dels ≤ 0

/-- An expectation record has expired at `now` when more than the TTL has
passed since the last `Expect*` call. -/
def Expectation.isExpired (e : Expectation) (now : Nat) : Bool :=
  e.timestamp + expectationTTL < now

/-- Insert or replace the record stored under `key`. -/
def setRecord (store : List (String × Expectation)) (key : String)
    (e : Expectation) : List (String × Expectation) :=
  match store with
  | [] => [(key, e)]
  | (k, v) :: rest =>
    if k = key then (key, e) :: rest else (k, v) :: setRecord rest key e

/-- Modelled from the spec: the per-kind expectation tracker, a store of
expectation records keyed by owner identity. -/
structure ControllerExpectations where
  store : List (String × Expectation)
deriving DecidableEq

/-- Look up the record stored under `key`, if any. -/
def lookupRecord : List (String × Expectation) → String → Option Expectation
  | [], _ => none
  | (k, v) :: rest, key => if k = key then some v else lookupRecord rest key

/-- Look up the record tracked for `key`, if any. -/
def ControllerExpectations.getExpectations (ce : ControllerExpectations)
    (key : String) : Option Expectation :=
  lookupRecord ce.store key

/-- Modelled from the spec: record that `n` creates were just issued for
this owner, stamping the current instant. -/
def ControllerExpectations.ExpectCreations (ce : ControllerExpectations)
    (key : String) (n : Int) (now : Nat) : ControllerExpectations :=
  ⟨setRecord ce.store key ⟨n, 0, now⟩⟩

/-- Modelled from the spec: record that `n` deletes were just issued for
this owner, stamping the current instant. -/
def ControllerExpectations.ExpectDeletions (ce : ControllerExpectations)
    (key : String) (n : Int) (now : Nat) : ControllerExpectations :=
  ⟨setRecord ce.store key ⟨0, n, now⟩⟩

/-- Modelled from the spec: an observed create decrements the pending-create
counter of the tracked record, if one exists. -/
def ControllerExpectations.ObserveCreation (ce : ControllerExpectations)
    (key : String) : ControllerExpectations :=
  match ce.getExpectations key with
  | none => ce
  | some e => ⟨setRecord ce.store key { e with adds := e.adds - 1 }⟩

/-- Modelled from the spec: an observed delete decrements the pending-delete
counter of the tracked record, if one exists. -/
def ControllerExpectations.ObserveDeletion (ce : ControllerExpectations)
    (key : String) : ControllerExpectations :=
  match ce.getExpectations key with
  | none => ce
  | some e => ⟨setRecord ce.store key { e with dels := e.dels - 1 }⟩

/-- Modelled from the spec: expectations for an owner are satisfied when no
record is tracked, or the record is fulfilled, or it has expired past the
TTL. -/
def ControllerExpectations.SatisfiedExpectations (ce : ControllerExpectations)
    (key : String) (now : Nat) : Bool :=
  match ce.getExpectations key with
  | none => true
  | some e => e.fulfilled || e.isExpired now

/-- The expectation key of a cluster: its identity, namespace and name. -/
def KeyFunc (cluster : Cluster) : String :=
  cluster.namespc ++ "/" ++ cluster.name

/-- The three per-kind expectation trackers held by `ClusterReconciler`. -/
structure ClusterReconciler where
  podExpectations : ControllerExpectations
  jobExpectations : ControllerExpectations
  pvcExpectations : ControllerExpectations
deriving DecidableEq

/-- `SatisfiedExpectations` checks if the expectations for a certain cluster
are met: transcribed from the Go source (early `return false` when any of
the pod, job or PVC trackers is unsatisfied). -/
def ClusterReconciler.SatisfiedExpectations (r : ClusterReconciler)
    (cluster : Cluster) (now : Nat) : Bool :=
  let key := KeyFunc cluster
  if !(r.podExpectations.SatisfiedExpectations key now) then false
  else if !(r.jobExpectations.SatisfiedExpectations key now) then false
  else if !(r.pvcExpectations.SatisfiedExpectations key now) then false
  else true

/-! ## The wal-archive command

Embedding of `internal/cmd/manager/walarchive/cmd.go`:
`barmanCloudWalArchiveOptions` and the `run` control flow. -/

namespace walarchive

/-- A semantic version as compared by `semver.Version.GE` on the
major/minor/patch triple (the code compares against a bare `2.13.0`, so
pre-release tags play no role). -/
structure Version where
  major : Nat
  minor : Nat
  patch : Nat
deriving DecidableEq

/-- `v.GE w`: semver ordering on the major/minor/patch triple. -/
def Version.GE (v w : Version) : Bool :=
  (w.major < v.major) ||
    (v.major = w.major &&
      ((w.minor < v.minor) || (v.minor = w.minor && w.patch ≤ v.patch)))

/-- WAL-specific barman configuration: compression and encryption settings
(empty string when unset, as in the Go string fields). -/
structure WalBackupConfiguration where
  compression : String
  encryption : String
deriving DecidableEq

/-- The barman object-store configuration read by the command. The
credential fields only matter through their presence (`nil` or not in Go),
so they are carried as Booleans. -/
structure BarmanObjectStoreConfiguration where
  wal : Option WalBackupConfiguration
  endpointURL : String
  s3Credentials : Bool
  azureCredentials : Bool
  serverName : String
  destinationPath : String
deriving DecidableEq

/-- Render the version operand of the Azure error message, as `%v` formats
a `*semver.Version`. -/
def versionText : Option Version → String
  | none => "<nil>"
  | some v =>
    toString v.major ++ "." ++ toString v.minor ++ "." ++ toString v.patch

/-- The guard computed at the top of `barmanCloudWalArchiveOptions`: the
detected version is known and at least `2.13.0`. -/
def barmanVersionGE213 : Option Version → Bool
  | none => false
  | some v => v.GE ⟨2, 13, 0⟩

/-- `barmanCloudWalArchiveOptions` builds the argument list of the external
`barman-cloud-wal-archive` invocation, transcribed from the Go source. The
Go function receives the whole cluster and reads
`cluster.Spec.Backup.BarmanObjectStore`, which `run` has already checked to
be non-nil; the configuration is taken directly here. -/
def barmanCloudWalArchiveOptions (configuration : BarmanObjectStoreConfiguration)
    (clusterName : String) (walName : String) (version : Option Version) :
    Except String (List String) :=
  let barmanCloudVersionGE213 := barmanVersionGE213 version
  let options : List String := []
  let options :=
    match configuration.wal with
    | none => options
    | some w =>
      let options :=
        if w.compression.length ≠ 0 then options ++ ["--" ++ w.compression]
        else options
      if w.encryption.length ≠ 0 then options ++ ["-e", w.encryption]
      else options
  let options :=
    if configuration.endpointURL.length > 0 then
      options ++ ["--endpoint-url", configuration.endpointURL]
    else options
  if barmanCloudVersionGE213 then
    let options :=
      if configuration.s3Credentials then
        options ++ ["--cloud-provider", "aws-s3"]
      else options
    let options :=
      if configuration.azureCredentials then
        options ++ ["--cloud-provider", "azure-blob-storage"]
      else options
    let serverName :=
      if configuration.serverName.length ≠ 0 then configuration.serverName
      else clusterName
    .ok (options ++ [configuration.destinationPath, serverName, walName])
  else if configuration.azureCredentials then
    .error ("barman >= 2.13 is required to use Azure object storage, current: "
      ++ versionText version)
  else
    let serverName :=
      if configuration.serverName.length ≠ 0 then configuration.serverName
      else clusterName
    .ok (options ++ [configuration.destinationPath, serverName, walName])

/-- The backup-related part of the cluster read by `run`. -/
structure BackupCluster where
  barmanObjectStore : Option BarmanObjectStoreConfiguration
deriving DecidableEq

/-- Results of the external calls one `run` invocation makes:
client construction, the cluster cache lookup, the detected barman-cloud
version (`none` when detection failed or returned nothing), and the
credential-environment cache lookup. -/
structure RunEnv where
  clientOk : Bool
  cluster : Except Unit BackupCluster
  clusterName : String
  walName : String
  version : Option Version
  envOk : Bool

/-- The terminal outcome of one `run` invocation: which `return` fired, or
that the external command was invoked with the built options. -/
inductive RunOutcome
  | clientError
  | getClusterError
  | backupNotConfigured
  | optionsError (msg : String)
  | envError
  | invoked (options : List String)
deriving DecidableEq

/-- The control flow of `run`, transcribed from the Go source: a failure in
`barmanCloudWalArchiveOptions` returns before the external command is
built or executed. -/
def run (env : RunEnv) : RunOutcome :=
  if !env.clientOk then .clientError
  else
    match env.cluster with
    | .error _ => .getClusterError
    | .ok cluster =>
      match cluster.barmanObjectStore with
      | none => .backupNotConfigured
      | some configuration =>
        match barmanCloudWalArchiveOptions configuration env.clusterName
            env.walName env.version with
        | .error msg => .optionsError msg
        | .ok options =>
          if !env.envOk then .envError
          else .invoked options

end walarchive

/-! ## Theorems about the action selector -/

/-- C2: for every cluster state reaching the action selector with
`Status.Instances == 0` and no dangling PVCs, `ReconcilePods` chooses
"create first instance" (`createPrimaryInstance`) and no other action
fires. -/
theorem reconcilePods_instances_zero_creates_primary (cluster : Cluster)
    (hpvc : cluster.status.danglingPVC = [])
    (hinst : cluster.status.instances = 0) :
    ReconcilePods cluster = PodAction.createPrimaryInstance := by
  simp [ReconcilePods, hpvc, hinst]

/-- Witness for C2 at a concrete cluster with no dangling PVCs and zero
instances. -/
theorem reconcilePods_instances_zero_creates_primary_witness :
    ReconcilePods
      { name := "pg", namespc := "default",
        spec := { instances := 3, nodeMaintenanceWindow := none },
        status := { instances := 0, readyInstances := 0, currentPrimary := "",
                    targetPrimary := "", danglingPVC := [] } } =
      PodAction.createPrimaryInstance :=
  reconcilePods_instances_zero_creates_primary _ rfl rfl

/-- C7: for every cluster state with `Spec.Instances = 3`,
`Status.Instances = 1`, `Status.ReadyInstances = 1`, no dangling PVCs and
current primary equal to target primary, the selector chooses "join
replica" with next serial 2, and no other action fires. -/
theorem reconcilePods_one_ready_of_three_joins_serial_two (cluster : Cluster)
    (hspec : cluster.spec.instances = 3)
    (hinst : cluster.status.instances = 1)
    (hready : cluster.status.readyInstances = 1)
    (hpvc : cluster.status.danglingPVC = [])
    (_hprim : cluster.status.currentPrimary = cluster.status.targetPrimary) :
    ReconcilePods cluster = PodAction.joinReplicaInstance 2 := by
  simp [ReconcilePods, hspec, hinst, hready, hpvc, generateNodeSerial]

/-- Witness for C7 at a concrete one-of-three cluster. -/
theorem reconcilePods_one_ready_of_three_joins_serial_two_witness :
    ReconcilePods
      { name := "pg", namespc := "default",
        spec := { instances := 3, nodeMaintenanceWindow := none },
        status := { instances := 1, readyInstances := 1, currentPrimary := "pg-1",
                    targetPrimary := "pg-1", danglingPVC := [] } } =
      PodAction.joinReplicaInstance 2 :=
  reconcilePods_one_ready_of_three_joins_serial_two _ rfl rfl rfl rfl rfl

/-- Counterexample to C3 as stated: a cluster in a node-maintenance window
without PVC reuse (so not in a maintenance-reuse window) whose ready count
differs from its instance count, yet with dangling PVCs the selector
recreates the pods (`handleDanglingPVC`) instead of waiting. -/
theorem reconcilePods_dangling_reuse_window_cex :
    Cluster.IsNodeMaintenanceWindowReusePVC
        { name := "pg", namespc := "default",
          spec := { instances := 2,
                    nodeMaintenanceWindow := some { inProgress := true, reusePVC := false } },
          status := { instances := 1, readyInstances := 0, currentPrimary := "pg-1",
                      targetPrimary := "pg-1", danglingPVC := ["pg-2-pvc"] } } = false ∧
    ReconcilePods
        { name := "pg", namespc := "default",
          spec := { instances := 2,
                    nodeMaintenanceWindow := some { inProgress := true, reusePVC := false } },
          status := { instances := 1, readyInstances := 0, currentPrimary := "pg-1",
                      targetPrimary := "pg-1", danglingPVC := ["pg-2-pvc"] } } =
      PodAction.handleDanglingPVC := by
  constructor
  · rfl
  · rfl

/-- C3 as amended: with dangling PVCs, the selector waits exactly when no
node-maintenance window is in progress (regardless of the PVC-reuse flag)
and the ready count differs from the instance count; otherwise it recreates
the pods bound to the dangling PVCs, and no other action fires. -/
theorem reconcilePods_dangling (cluster : Cluster)
    (hpvc : cluster.status.danglingPVC ≠ []) :
    (cluster.IsNodeMaintenanceWindowInProgress = false →
      cluster.status.readyInstances ≠ cluster.status.instances →
      ReconcilePods cluster = PodAction.waitDanglingNotReady) ∧
    (cluster.IsNodeMaintenanceWindowInProgress = true ∨
      cluster.status.readyInstances = cluster.status.instances →
      ReconcilePods cluster = PodAction.handleDanglingPVC) := by
  have hlen : cluster.status.danglingPVC.length > 0 :=
    List.length_pos.mpr hpvc
  refine ⟨fun h1 h2 => ?_, fun h => ?_⟩
  · simp [ReconcilePods, hlen, h1, h2]
  · rcases h with h | h
    · simp [ReconcilePods, hlen, h]
    · simp [ReconcilePods, hlen, h]

/-- Witness for the amended C3 at a concrete cluster with a dangling PVC,
no maintenance window and a not-yet-ready instance. -/
theorem reconcilePods_dangling_witness :
    ReconcilePods
      { name := "pg", namespc := "default",
        spec := { instances := 2, nodeMaintenanceWindow := none },
        status := { instances := 1, readyInstances := 0, currentPrimary := "pg-1",
                    targetPrimary := "pg-1", danglingPVC := ["pg-2-pvc"] } } =
      PodAction.waitDanglingNotReady :=
  (reconcilePods_dangling _ (by decide)).1 rfl (by decide)

/-! ## Theorems about the Reconcile control flow -/

/-- A cluster whose current primary differs from its target primary, used
as the concrete input of the C1 counterexample. -/
def divergingCluster : Cluster :=
  { name := "pg", namespc := "default",
    spec := { instances := 3, nodeMaintenanceWindow := none },
    status := { instances := 3, readyInstances := 3, currentPrimary := "pg-1",
                targetPrimary := "pg-2", danglingPVC := [] } }

/-- Counterexample to C1 as stated: an invocation whose expectations are
unsatisfied and whose status update would fail, with current primary
non-empty and different from target primary. The outcome is the
switchover wait, so the divergence wait is decided without consulting the
expectations gate, and the status update and topology resolution never
run (the outcome would otherwise be `statusUpdateError`). -/
theorem reconcile_switchover_before_gate_cex :
    (ReconcileEnv.satisfiedExpectations
      { getCluster := Except.ok divergingCluster,
        getNamespace := Except.ok { deletionTimestampIsZero := true },
        getResourcesOk := true, runningJobs := 0,
        updateStatusResult := some StatusUpdateError.other,
        createObjectsOk := true, getInstancesStatusOk := true,
        updateTargetPrimaryOk := true, updateLabelsOk := true,
        satisfiedExpectations := false } = false) ∧
    Reconcile
      { getCluster := Except.ok divergingCluster,
        getNamespace := Except.ok { deletionTimestampIsZero := true },
        getResourcesOk := true, runningJobs := 0,
        updateStatusResult := some StatusUpdateError.other,
        createObjectsOk := true, getInstancesStatusOk := true,
        updateTargetPrimaryOk := true, updateLabelsOk := true,
        satisfiedExpectations := false } = ReconcileOutcome.switchoverWait :=
  ⟨rfl, rfl⟩

/-- C1 as amended: once the cluster and namespace are fetched and the
snapshot is collected, the current-vs-target-primary divergence wait is
decided first, before the status update, topology resolution and the
expectations gate, and Reconcile returns immediately on divergence; when
there is no divergence and every intermediate step succeeds, status
projection and topology resolution run and the expectations gate is decided
last, immediately before action selection. -/
theorem reconcile_pipeline_order (env : ReconcileEnv) (cluster : Cluster)
    (ns : NamespaceObject)
    (hc : env.getCluster = Except.ok cluster)
    (hn : env.getNamespace = Except.ok ns)
    (hts : ns.deletionTimestampIsZero = true)
    (hres : env.getResourcesOk = true) :
    (cluster.status.currentPrimary ≠ "" →
      cluster.status.currentPrimary ≠ cluster.status.targetPrimary →
      Reconcile env = ReconcileOutcome.switchoverWait) ∧
    ((cluster.status.currentPrimary = "" ∨
        cluster.status.currentPrimary = cluster.status.targetPrimary) →
      env.updateStatusResult = none →
      env.runningJobs = 0 →
      env.createObjectsOk = true →
      env.getInstancesStatusOk = true →
      env.updateTargetPrimaryOk = true →
      env.updateLabelsOk = true →
      Reconcile env =
        (if env.satisfiedExpectations then
          ReconcileOutcome.podAction (ReconcilePods cluster)
        else ReconcileOutcome.expectationsWait)) := by
  constructor
  · intro h1 h2
    simp [Reconcile, hc, hn, hts, hres, h1, h2]
  · intro hprim hupd hjobs hobj hstat htgt hlab
    rcases hprim with h | h <;>
      simp [Reconcile, hc, hn, hts, hres, h, hupd, hjobs, hobj, hstat, htgt, hlab]

/-- Witness for the amended C1: at a concrete diverging invocation the
outcome is the switchover wait. -/
theorem reconcile_pipeline_order_witness :
    Reconcile
      { getCluster := Except.ok divergingCluster,
        getNamespace := Except.ok { deletionTimestampIsZero := true },
        getResourcesOk := true, runningJobs := 0,
        updateStatusResult := none,
        createObjectsOk := true, getInstancesStatusOk := true,
        updateTargetPrimaryOk := true, updateLabelsOk := true,
        satisfiedExpectations := true } = ReconcileOutcome.switchoverWait :=
  (reconcile_pipeline_order _ divergingCluster _ rfl rfl rfl rfl).1
    (by decide) (by decide)

/-- C4: when the status update fails with an optimistic-concurrency
conflict, Reconcile returns success (empty result, nil error) so the loop
retries next cycle; a non-conflict status-update error is returned as a
failure. -/
theorem reconcile_status_update_conflict (env : ReconcileEnv)
    (cluster : Cluster) (ns : NamespaceObject)
    (hc : env.getCluster = Except.ok cluster)
    (hn : env.getNamespace = Except.ok ns)
    (hts : ns.deletionTimestampIsZero = true)
    (hres : env.getResourcesOk = true)
    (hprim : cluster.status.currentPrimary = "" ∨
      cluster.status.currentPrimary = cluster.status.targetPrimary) :
    (env.updateStatusResult = some StatusUpdateError.conflict →
      Reconcile env = ReconcileOutcome.statusUpdateConflictRetry ∧
      ReconcileOutcome.errorIsNil ReconcileOutcome.statusUpdateConflictRetry =
        some true) ∧
    (env.updateStatusResult = some StatusUpdateError.other →
      Reconcile env = ReconcileOutcome.statusUpdateError ∧
      ReconcileOutcome.errorIsNil ReconcileOutcome.statusUpdateError =
        some false) := by
  constructor
  · intro hupd
    rcases hprim with h | h <;>
      simp [Reconcile, hc, hn, hts, hres, h, hupd, ReconcileOutcome.errorIsNil]
  · intro hupd
    rcases hprim with h | h <;>
      simp [Reconcile, hc, hn, hts, hres, h, hupd, ReconcileOutcome.errorIsNil]

/-- A healthy non-diverging cluster, used as concrete input by witnesses
for the Reconcile control-flow theorems. -/
def steadyCluster : Cluster :=
  { name := "pg", namespc := "default",
    spec := { instances := 3, nodeMaintenanceWindow := none },
    status := { instances := 3, readyInstances := 3, currentPrimary := "pg-1",
                targetPrimary := "pg-1", danglingPVC := [] } }

/-- Witness for C4 at a concrete invocation whose status update conflicts. -/
theorem reconcile_status_update_conflict_witness :
    Reconcile
      { getCluster := Except.ok steadyCluster,
        getNamespace := Except.ok { deletionTimestampIsZero := true },
        getResourcesOk := true, runningJobs := 0,
        updateStatusResult := some StatusUpdateError.conflict,
        createObjectsOk := true, getInstancesStatusOk := true,
        updateTargetPrimaryOk := true, updateLabelsOk := true,
        satisfiedExpectations := true } =
      ReconcileOutcome.statusUpdateConflictRetry ∧
    ReconcileOutcome.errorIsNil ReconcileOutcome.statusUpdateConflictRetry =
      some true :=
  (reconcile_status_update_conflict _ steadyCluster _ rfl rfl rfl rfl
    (Or.inr rfl)).1 rfl

/-- Counterexample to C5 as stated: an invocation where the containing
namespace has been deleted (its fetch returns not-found) while the cluster
is still fetched; Reconcile surfaces an error instead of returning
success. -/
theorem reconcile_namespace_notfound_cex :
    Reconcile
      { getCluster := Except.ok steadyCluster,
        getNamespace := Except.error FetchError.notFound,
        getResourcesOk := true, runningJobs := 0,
        updateStatusResult := none,
        createObjectsOk := true, getInstancesStatusOk := true,
        updateTargetPrimaryOk := true, updateLabelsOk := true,
        satisfiedExpectations := true } = ReconcileOutcome.getNamespaceError ∧
    ReconcileOutcome.errorIsNil ReconcileOutcome.getNamespaceError =
      some false :=
  ⟨rfl, rfl⟩

/-- C5 as amended: a not-found cluster fetch is a terminal no-op (empty
result, nil error), and a namespace fetched with a non-zero deletion
timestamp (deletion in progress) is likewise a terminal no-op; a namespace
fetch that itself fails, not-found included, is surfaced as an error. -/
theorem reconcile_deleted_noop (env : ReconcileEnv) :
    (env.getCluster = Except.error FetchError.notFound →
      Reconcile env = ReconcileOutcome.clusterDeleted ∧
      ReconcileOutcome.errorIsNil ReconcileOutcome.clusterDeleted = some true) ∧
    (∀ cluster ns, env.getCluster = Except.ok cluster →
      env.getNamespace = Except.ok ns →
      ns.deletionTimestampIsZero = false →
      Reconcile env = ReconcileOutcome.namespaceBeingDeleted ∧
      ReconcileOutcome.errorIsNil ReconcileOutcome.namespaceBeingDeleted =
        some true) ∧
    (∀ cluster e, env.getCluster = Except.ok cluster →
      env.getNamespace = Except.error e →
      Reconcile env = ReconcileOutcome.getNamespaceError ∧
      ReconcileOutcome.errorIsNil ReconcileOutcome.getNamespaceError =
        some false) := by
  refine ⟨fun hc => ?_, fun cluster ns hc hn hts => ?_, fun cluster e hc hn => ?_⟩
  · simp [Reconcile, hc, ReconcileOutcome.errorIsNil]
  · simp [Reconcile, hc, hn, hts, ReconcileOutcome.errorIsNil]
  · simp [Reconcile, hc, hn, ReconcileOutcome.errorIsNil]

/-- Witness for the amended C5 at a concrete invocation whose cluster fetch
returns not-found. -/
theorem reconcile_deleted_noop_witness :
    Reconcile
      { getCluster := Except.error FetchError.notFound,
        getNamespace := Except.ok { deletionTimestampIsZero := true },
        getResourcesOk := true, runningJobs := 0,
        updateStatusResult := none,
        createObjectsOk := true, getInstancesStatusOk := true,
        updateTargetPrimaryOk := true, updateLabelsOk := true,
        satisfiedExpectations := true } = ReconcileOutcome.clusterDeleted ∧
    ReconcileOutcome.errorIsNil ReconcileOutcome.clusterDeleted = some true :=
  (reconcile_deleted_noop _).1 rfl

/-- C9: when `Status.CurrentPrimary` is the empty string, the
switchover-in-progress wait never fires, even if `Status.TargetPrimary` is
non-empty and differs from it: a bootstrapping cluster with no current
primary is never blocked by the divergence rule. -/
theorem reconcile_empty_current_primary_no_switchover_wait
    (env : ReconcileEnv) (cluster : Cluster)
    (hc : env.getCluster = Except.ok cluster)
    (hprim : cluster.status.currentPrimary = "") :
    Reconcile env ≠ ReconcileOutcome.switchoverWait := by
  unfold Reconcile
  rw [hc]
  rcases hn : env.getNamespace with e | ns
  · simp
  · repeat' split
    all_goals simp_all

/-- Witness for C9: a bootstrapping cluster with empty current primary and
non-empty target primary is not held by the switchover wait. -/
theorem reconcile_empty_current_primary_no_switchover_wait_witness :
    Reconcile
      { getCluster := Except.ok
          { name := "pg", namespc := "default",
            spec := { instances := 3, nodeMaintenanceWindow := none },
            status := { instances := 0, readyInstances := 0, currentPrimary := "",
                        targetPrimary := "pg-1", danglingPVC := [] } },
        getNamespace := Except.ok { deletionTimestampIsZero := true },
        getResourcesOk := true, runningJobs := 0,
        updateStatusResult := none,
        createObjectsOk := true, getInstancesStatusOk := true,
        updateTargetPrimaryOk := true, updateLabelsOk := true,
        satisfiedExpectations := true } ≠ ReconcileOutcome.switchoverWait :=
  reconcile_empty_current_primary_no_switchover_wait _ _ rfl rfl

/-- C10: when the snapshot contains at least one running job owned by the
cluster, the invocation never reaches the expectations gate or the action
selector (no pod action and no expectations wait can be the outcome), and
when every step up to the job check succeeds it returns the jobs wait with
an empty result and nil error. -/
theorem reconcile_running_jobs_wait (env : ReconcileEnv) (cluster : Cluster)
    (hc : env.getCluster = Except.ok cluster)
    (hjobs : env.runningJobs > 0) :
    (∀ a, Reconcile env ≠ ReconcileOutcome.podAction a) ∧
    Reconcile env ≠ ReconcileOutcome.expectationsWait ∧
    (∀ ns, env.getNamespace = Except.ok ns →
      ns.deletionTimestampIsZero = true →
      env.getResourcesOk = true →
      (cluster.status.currentPrimary = "" ∨
        cluster.status.currentPrimary = cluster.status.targetPrimary) →
      env.updateStatusResult = none →
      Reconcile env = ReconcileOutcome.jobsWait ∧
      ReconcileOutcome.errorIsNil ReconcileOutcome.jobsWait = some true) := by
  refine ⟨fun a => ?_, ?_, fun ns hn hts hres hprim hupd => ?_⟩
  · unfold Reconcile
    rw [hc]
    rcases hn : env.getNamespace with e | ns
    · simp
    · repeat' split
      all_goals simp_all
  · unfold Reconcile
    rw [hc]
    rcases hn : env.getNamespace with e | ns
    · simp
    · repeat' split
      all_goals simp_all
  · rcases hprim with h | h <;>
      simp [Reconcile, hc, hn, hts, hres, h, hupd, hjobs,
        ReconcileOutcome.errorIsNil]

/-- Witness for C10 at a concrete invocation with one running join job. -/
theorem reconcile_running_jobs_wait_witness :
    Reconcile
      { getCluster := Except.ok steadyCluster,
        getNamespace := Except.ok { deletionTimestampIsZero := true },
        getResourcesOk := true, runningJobs := 1,
        updateStatusResult := none,
        createObjectsOk := true, getInstancesStatusOk := true,
        updateTargetPrimaryOk := true, updateLabelsOk := true,
        satisfiedExpectations := true } = ReconcileOutcome.jobsWait ∧
    ReconcileOutcome.errorIsNil ReconcileOutcome.jobsWait = some true :=
  ((reconcile_running_jobs_wait _ steadyCluster rfl (by decide)).2.2 _ rfl rfl
    rfl (Or.inr rfl) rfl)

/-! ## Theorems about the expectation tracker -/

/-- Looking up a key right after storing a record under it yields that
record. -/
theorem lookup_setRecord (store : List (String × Expectation)) (key : String)
    (e : Expectation) :
    ControllerExpectations.getExpectations ⟨setRecord store key e⟩ key = some e := by
  induction store with
  | nil => simp [setRecord, ControllerExpectations.getExpectations, lookupRecord]
  | cons p rest ih =>
    obtain ⟨k, v⟩ := p
    by_cases hk : k = key
    · simp [setRecord, hk, ControllerExpectations.getExpectations, lookupRecord]
    · simpa [setRecord, hk, ControllerExpectations.getExpectations,
        lookupRecord] using ih

/-- The record tracked right after `ExpectCreations` carries the requested
pending-create count, no pending deletes and the call's timestamp. -/
theorem getExpectations_ExpectCreations (ce : ControllerExpectations)
    (key : String) (n : Int) (now : Nat) :
    (ce.ExpectCreations key n now).getExpectations key = some ⟨n, 0, now⟩ :=
  lookup_setRecord ce.store key ⟨n, 0, now⟩

/-- C6: `SatisfiedExpectations` on the reconciler is the conjunction of the
pod, job and PVC trackers' verdicts for the cluster's key (false as soon as
any one is unsatisfied); after `ExpectCreations(key, pod, 1)` it returns
false as long as the TTL horizon has not elapsed, and returns true again
once `ObserveCreation(key, pod)` is called or once the horizon has elapsed
(the job and PVC trackers being satisfied). -/
theorem SatisfiedExpectations_spec (r : ClusterReconciler) (cluster : Cluster)
    (now t : Nat) :
    (r.SatisfiedExpectations cluster now =
      (r.podExpectations.SatisfiedExpectations (KeyFunc cluster) now &&
       r.jobExpectations.SatisfiedExpectations (KeyFunc cluster) now &&
       r.pvcExpectations.SatisfiedExpectations (KeyFunc cluster) now)) ∧
    (now ≤ t + expectationTTL →
      ClusterReconciler.SatisfiedExpectations
        { r with podExpectations :=
            r.podExpectations.ExpectCreations (KeyFunc cluster) 1 t }
        cluster now = false) ∧
    (r.jobExpectations.SatisfiedExpectations (KeyFunc cluster) now = true →
      r.pvcExpectations.SatisfiedExpectations (KeyFunc cluster) now = true →
      (ClusterReconciler.SatisfiedExpectations
        { r with podExpectations := (ControllerExpectations.ObserveCreation
            (r.podExpectations.ExpectCreations (KeyFunc cluster) 1 t)
            (KeyFunc cluster)) }
        cluster now = true) ∧
      (t + expectationTTL < now →
        ClusterReconciler.SatisfiedExpectations
          { r with podExpectations :=
              r.podExpectations.ExpectCreations (KeyFunc cluster) 1 t }
          cluster now = true)) := by
  refine ⟨?_, fun httl => ?_, fun hjob hpvc => ⟨?_, fun hexp => ?_⟩⟩
  · cases hp : r.podExpectations.SatisfiedExpectations (KeyFunc cluster) now <;>
    cases hj : r.jobExpectations.SatisfiedExpectations (KeyFunc cluster) now <;>
    cases hv : r.pvcExpectations.SatisfiedExpectations (KeyFunc cluster) now <;>
      simp [ClusterReconciler.SatisfiedExpectations, hp, hj, hv]
  · have hget := getExpectations_ExpectCreations r.podExpectations
      (KeyFunc cluster) 1 t
    have hpod : (r.podExpectations.ExpectCreations (KeyFunc cluster) 1
        t).SatisfiedExpectations (KeyFunc cluster) now = false := by
      simp [ControllerExpectations.SatisfiedExpectations, hget,
        Expectation.fulfilled, Expectation.isExpired, Nat.not_lt.mpr httl]
    simp [ClusterReconciler.SatisfiedExpectations, hpod]
  · have hget := getExpectations_ExpectCreations r.podExpectations
      (KeyFunc cluster) 1 t
    have hobs : ((r.podExpectations.ExpectCreations (KeyFunc cluster) 1 t).ObserveCreation
        (KeyFunc cluster)).getExpectations (KeyFunc cluster) =
        some ⟨0, 0, t⟩ := by
      rw [ControllerExpectations.ObserveCreation, hget]
      simpa using lookup_setRecord
        (r.podExpectations.ExpectCreations (KeyFunc cluster) 1 t).store
        (KeyFunc cluster) ⟨0, 0, t⟩
    have hpod : (ControllerExpectations.ObserveCreation
        (r.podExpectations.ExpectCreations (KeyFunc cluster) 1 t)
        (KeyFunc cluster)).SatisfiedExpectations (KeyFunc cluster) now = true := by
      simp [ControllerExpectations.SatisfiedExpectations, hobs,
        Expectation.fulfilled]
    simp [ClusterReconciler.SatisfiedExpectations, hpod, hjob, hpvc]
  · have hget := getExpectations_ExpectCreations r.podExpectations
      (KeyFunc cluster) 1 t
    have hpod : (r.podExpectations.ExpectCreations (KeyFunc cluster) 1
        t).SatisfiedExpectations (KeyFunc cluster) now = true := by
      simp [ControllerExpectations.SatisfiedExpectations, hget,
        Expectation.fulfilled, Expectation.isExpired, hexp]
    simp [ClusterReconciler.SatisfiedExpectations, hpod, hjob, hpvc]

/-- Witness for C6: with all three trackers empty, expectations for a
concrete cluster are unsatisfied five seconds after `ExpectCreations` of one
pod. -/
theorem SatisfiedExpectations_spec_witness :
    ClusterReconciler.SatisfiedExpectations
      { podExpectations :=
          ControllerExpectations.ExpectCreations ⟨[]⟩ (KeyFunc steadyCluster) 1 0,
        jobExpectations := ⟨[]⟩, pvcExpectations := ⟨[]⟩ }
      steadyCluster 5 = false :=
  (SatisfiedExpectations_spec ⟨⟨[]⟩, ⟨[]⟩, ⟨[]⟩⟩ steadyCluster 5 0).2.1
    (by decide)

/-! ## Theorems about the wal-archive command -/

namespace walarchive

/-- C8: with Azure credentials configured, when the detected barman-cloud
version is unknown or below 2.13, `barmanCloudWalArchiveOptions` returns a
descriptive error and no options, and `run` never invokes the external
archiving command; when the version is at least 2.13, the returned options
include the cloud-provider flag for the configured provider. -/
theorem barmanCloudWalArchiveOptions_azure_gate
    (configuration : BarmanObjectStoreConfiguration)
    (clusterName walName : String) (version : Option Version)
    (hazure : configuration.azureCredentials = true) :
    (barmanVersionGE213 version = false →
      (barmanCloudWalArchiveOptions configuration clusterName walName version =
        Except.error
          ("barman >= 2.13 is required to use Azure object storage, current: "
            ++ versionText version)) ∧
      (∀ env : RunEnv, ∀ bc : BackupCluster,
        env.cluster = Except.ok bc →
        bc.barmanObjectStore = some configuration →
        env.clusterName = clusterName → env.walName = walName →
        env.version = version →
        ∀ opts, run env ≠ RunOutcome.invoked opts)) ∧
    (barmanVersionGE213 version = true →
      ∃ opts,
        barmanCloudWalArchiveOptions configuration clusterName walName version =
          Except.ok opts ∧
        "--cloud-provider" ∈ opts ∧ "azure-blob-storage" ∈ opts) := by
  constructor
  · intro hver
    have herr : barmanCloudWalArchiveOptions configuration clusterName walName
        version = Except.error
          ("barman >= 2.13 is required to use Azure object storage, current: "
            ++ versionText version) := by
      simp [barmanCloudWalArchiveOptions, hver, hazure]
    refine ⟨herr, fun env bc hcl hconf hname hwal hv opts => ?_⟩
    unfold run
    rcases hclient : env.clientOk with _ | _
    · simp
    · rw [hcl]
      simp [hclient, hconf, hname, hwal, hv, herr]
  · intro hver
    simp only [barmanCloudWalArchiveOptions, hver, hazure, if_true]
    refine ⟨_, rfl, ?_, ?_⟩ <;> simp

/-- Witness for C8: a concrete Azure configuration with an unknown
barman-cloud version is rejected with the descriptive error. -/
theorem barmanCloudWalArchiveOptions_azure_gate_witness :
    barmanCloudWalArchiveOptions
      { wal := none, endpointURL := "", s3Credentials := false,
        azureCredentials := true, serverName := "",
        destinationPath := "s3://bucket/path" } "pg" "000000010000000000000001"
      none =
      Except.error
        "barman >= 2.13 is required to use Azure object storage, current: <nil>" :=
  ((barmanCloudWalArchiveOptions_azure_gate
    { wal := none, endpointURL := "", s3Credentials := false,
      azureCredentials := true, serverName := "",
      destinationPath := "s3://bucket/path" } "pg" "000000010000000000000001"
    none rfl).1 rfl).1

end walarchive

end CNPG
